import Mathlib

/-!
Shallow embedding of `ax/modelbridge/dispatch_utils.py` (the strategy-selection
and pipeline-assembly engine of the Ax repository) and proofs about it.

Conventions of the embedding:
* Python `Optional[T]` becomes `Option T`; `None` becomes `none`.
* Python `int` becomes `Int`. Winsorization limits (floats that are only
  stored, never computed with) become `Rat`. Range-parameter bounds become
  `Int`: the only bounds this module ever reads are those of INT-typed range
  parameters (line 129 of the source), and Ax casts those to `int` on
  construction, so `int(upper - lower)` is `upper - lower`; the bounds of
  FLOAT-typed range parameters are dead data here.
* A function that can `raise ValueError` returns `Except ChooseError _`.
* Python truthiness of an `Optional[int]` (`None` and `0` falsy) is made
  explicit via `truthyOptInt` and `pyOrInt`.
-/

/-- Embeds the `ParameterType` enum of `ax.core.parameter` (the four member
names mirror the Python enum). -/
inductive ParameterType
  | BOOL
  | INT
  | FLOAT
  | STRING
deriving DecidableEq, Repr

/-- Embeds the parameter classes of `ax.core.parameter` that
`dispatch_utils.py` inspects: `ChoiceParameter` (with its list of values),
`RangeParameter` (with its `parameter_type`, `lower` and `upper` attributes)
and the remaining kinds (e.g. `FixedParameter`), which the analyzer loop
skips without counting. -/
inductive Parameter
  | choice (values : List String)
  | range (parameter_type : ParameterType) (lower upper : Int)
  | fixed (value : String)
deriving DecidableEq, Repr

/-- Embeds `ax.core.search_space.SearchSpace`: a mapping from parameter name
to parameter, modelled as an association list (only the multiset of
parameters and the length of the mapping are ever read). -/
structure SearchSpace where
  parameters : List (String × Parameter)
deriving DecidableEq, Repr

/-- Embeds the only attribute of `ax.core.optimization_config.OptimizationConfig`
that `dispatch_utils.py` reads: the `is_moo_problem` property. -/
structure OptimizationConfig where
  is_moo_problem : Bool
deriving DecidableEq, Repr

/-- Embeds the `Models` registry members that occur in `dispatch_utils.py`. -/
inductive Models
  | SOBOL
  | GPEI
  | MOO
  | FULLYBAYESIAN
  | FULLYBAYESIANMOO
  | BO_MIXED
deriving DecidableEq, Repr

/-- Embeds `DEFAULT_BAYESIAN_PARALLELISM = 3` (line 25 of the source). -/
def DEFAULT_BAYESIAN_PARALLELISM : Int := 3

/-- Embeds `MAX_DISCRETE_COMBINATIONS = 65` (line 26 of the source). -/
def MAX_DISCRETE_COMBINATIONS : Nat := 65

/-- Embeds Python `is_moo_problem = optimization_config and
optimization_config.is_moo_problem` as used in a boolean position: `None` is
falsy, otherwise the `is_moo_problem` attribute decides. -/
def isMooProblem : Option OptimizationConfig → Bool
  | none => false
  | some optimization_config => optimization_config.is_moo_problem

/-- Embeds Python truthiness of an `Optional[int]` value: `None` and `0` are
falsy, every other integer is truthy. -/
def truthyOptInt : Option Int → Bool
  | none => false
  | some n => n != 0

/-- Embeds Python `x or d` for `x : Optional[int]` and an integer default `d`:
`None` and `0` are falsy and select the default. -/
def pyOrInt (x : Option Int) (d : Int) : Int :=
  match x with
  | none => d
  | some n => if n = 0 then d else n

/-- Embeds `math.ceil(n / 2)` on an integer `n` (used for
`min_trials_observed` on lines 46 and 88 of the source): the exact ceiling of
`n / 2`, computed as the floor of `(n + 1) / 2` via Euclidean division by the
positive constant `2`. The theorem `ceilHalf_eq_ceil` below proves this equals
the mathematical ceiling. -/
def ceilHalf (n : Int) : Int := (n + 1) / 2

/-- Embeds the running totals of the analyzer loop in `_suggest_gp_model`
(lines 116-129 of the source): the five summary statistics of a search
space. -/
structure SpaceSummary where
  num_continuous_parameters : Nat
  num_discrete_choices : Nat
  num_discrete_combinations : Nat
  num_possible_points : Int
  all_range_parameters_are_int : Bool
deriving DecidableEq, Repr

/-- Embeds one iteration of the analyzer loop of `_suggest_gp_model` (lines
119-129 of the source): a `ChoiceParameter` adds its value count to the sum
and multiplies both products; a `RangeParameter` increments the continuous
count, and either clears the all-integer flag (non-INT type) or multiplies
the point count by `int(upper - lower)` (INT type; the bounds are integers,
so the `int` truncation is the identity); any other parameter kind is
skipped. -/
def updateSummary (s : SpaceSummary) : Parameter → SpaceSummary
  | Parameter.choice values =>
      { s with
        num_discrete_choices := s.num_discrete_choices + values.length
        num_discrete_combinations := s.num_discrete_combinations * values.length
        num_possible_points := s.num_possible_points * (values.length : Int) }
  | Parameter.range parameter_type lower upper =>
      let s := { s with num_continuous_parameters := s.num_continuous_parameters + 1 }
      if parameter_type = ParameterType.INT then
        { s with num_possible_points := s.num_possible_points * (upper - lower) }
      else
        { s with all_range_parameters_are_int := false }
  | Parameter.fixed _ => s

/-- Embeds the whole analyzer loop of `_suggest_gp_model` (lines 116-129):
fold `updateSummary` over the parameters of the search space, starting from
the initial values `0, 0, 1, 1, True` of the source. -/
def summarize (search_space : SearchSpace) : SpaceSummary :=
  search_space.parameters.foldl (fun s p => updateSummary s p.2)
    { num_continuous_parameters := 0
      num_discrete_choices := 0
      num_discrete_combinations := 1
      num_possible_points := 1
      all_range_parameters_are_int := true }

/-- Embeds the guard of the first rule of `_suggest_gp_model` (lines 131-135):
`num_trials is not None and all_range_parameters_are_int and
num_possible_points <= num_trials`. -/
def enumerableWithinBudget (s : SpaceSummary) : Option Int → Bool
  | some num_trials =>
      s.all_range_parameters_are_int && decide (s.num_possible_points ≤ num_trials)
  | none => false

/-- Embeds `_suggest_gp_model` (lines 96-174 of the source). Logging calls
are omitted (advisory only); the returned value is reproduced branch by
branch. -/
def suggestGpModel (search_space : SearchSpace) (num_trials : Option Int)
    (optimization_config : Option OptimizationConfig) (use_saasbo : Bool) :
    Option Models :=
  let s := summarize search_space
  if enumerableWithinBudget s num_trials then
    none
  else if s.num_continuous_parameters > s.num_discrete_choices then
    (if isMooProblem optimization_config && use_saasbo then some Models.FULLYBAYESIANMOO
     else if isMooProblem optimization_config && !use_saasbo then some Models.MOO
     else if use_saasbo then some Models.FULLYBAYESIAN
     else some Models.GPEI)
  else if !isMooProblem optimization_config &&
      decide (s.num_discrete_combinations ≤ MAX_DISCRETE_COMBINATIONS) then
    some Models.BO_MIXED
  else
    none

/-- Embeds the two `ValueError`s that `choose_generation_strategy` can raise:
the inconsistent-winsorization error of `_make_botorch_step` (lines 65-71)
and the conflicting-parallelism error of `choose_generation_strategy`
(lines 259-263). -/
inductive ChooseError
  | winsorizationInconsistent
  | parallelismConflict
deriving DecidableEq, Repr

/-- Embeds the `model_kwargs` payloads that `dispatch_utils.py` places in a
`GenerationStep`: either `None`, the Sobol payload
`{"deduplicate": True, "seed": seed}` (line 49), or the winsorization payload
carrying the two limits (lines 75-83). -/
inductive ModelKwargs
  | none
  | sobol (deduplicate : Bool) (seed : Option Int)
  | winsorize (winsorization_lower winsorization_upper : Option Rat)
deriving DecidableEq, Repr

/-- Embeds `ax.modelbridge.generation_strategy.GenerationStep` restricted to
the fields `dispatch_utils.py` populates. -/
structure GenerationStep where
  model : Models
  num_trials : Int
  min_trials_observed : Int
  enforce_num_trials : Bool
  max_parallelism : Option Int
  model_kwargs : ModelKwargs
  should_deduplicate : Bool
deriving DecidableEq, Repr

/-- Embeds `ax.modelbridge.generation_strategy.GenerationStrategy` restricted
to what `dispatch_utils.py` populates: the ordered list of steps and the
optional experiment back-reference (the experiment itself is opaque here and
modelled by an identifier). -/
structure GenerationStrategy where
  steps : List GenerationStep
  experiment : Option Nat
deriving DecidableEq, Repr

/-- Embeds `_make_sobol_step` (lines 33-51 of the source). All arguments are
passed explicitly; the Python defaults are supplied at the call sites. -/
def makeSobolStep (num_trials : Int) (min_trials_observed : Option Int)
    (enforce_num_trials : Bool) (max_parallelism : Option Int)
    (seed : Option Int) (should_deduplicate : Bool) : GenerationStep :=
  { model := Models.SOBOL
    num_trials := num_trials
    min_trials_observed := pyOrInt min_trials_observed (ceilHalf num_trials)
    enforce_num_trials := enforce_num_trials
    max_parallelism := max_parallelism
    model_kwargs := ModelKwargs.sobol true seed
    should_deduplicate := should_deduplicate }

/-- Embeds `_make_botorch_step` (lines 54-93 of the source), including the
inconsistent-winsorization `ValueError` of lines 65-71, returned as
`Except.error`. -/
def makeBotorchStep (num_trials : Int) (min_trials_observed : Option Int)
    (enforce_num_trials : Bool) (max_parallelism : Option Int) (model : Models)
    (winsorize : Bool) (winsorization_limits : Option (Option Rat × Option Rat))
    (should_deduplicate : Bool) : Except ChooseError GenerationStep :=
  if winsorize && winsorization_limits.isNone ||
      winsorization_limits.isSome && !winsorize then
    Except.error ChooseError.winsorizationInconsistent
  else
    Except.ok
      { model := model
        num_trials := num_trials
        min_trials_observed := pyOrInt min_trials_observed (ceilHalf num_trials)
        enforce_num_trials := enforce_num_trials
        max_parallelism := max_parallelism
        model_kwargs :=
          if winsorize then
            match winsorization_limits with
            | some limits => ModelKwargs.winsorize limits.1 limits.2
            | none => ModelKwargs.none
          else ModelKwargs.none
        should_deduplicate := should_deduplicate }

/-- Embeds the estimation of `num_initialization_trials` in
`choose_generation_strategy` (lines 265-270 of the source): keep an explicit
value, otherwise `1` for batched trials and `max(5, len(parameters))` for
1-arm trials. -/
def resolveInitTrials (num_initialization_trials : Option Int)
    (use_batch_trials : Bool) (search_space : SearchSpace) : Int :=
  match num_initialization_trials with
  | some n => n
  | none =>
      if use_batch_trials then 1
      else max 5 (search_space.parameters.length : Int)

/-- Embeds the parallelism determination of `choose_generation_strategy`
(lines 272-288 of the source): the pair is
`(sobol_parallelism, bo_parallelism)`. -/
def resolveParallelism (max_parallelism_override max_parallelism_cap : Option Int)
    (enforce_sequential_optimization : Bool) : Option Int × Option Int :=
  if max_parallelism_override = some (-1) then
    (none, none)
  else
    match max_parallelism_override with
    | some o => (some o, some o)
    | none =>
        match max_parallelism_cap with
        | some c => (some c, some (min c DEFAULT_BAYESIAN_PARALLELISM))
        | none =>
            if !enforce_sequential_optimization then (none, none)
            else (none, some DEFAULT_BAYESIAN_PARALLELISM)

/-- Embeds lines 322-323 of the source: `if experiment: gs.experiment =
experiment` (an experiment object is always truthy when present). -/
def attachExperiment (gs : GenerationStrategy) (experiment : Option Nat) :
    GenerationStrategy :=
  match experiment with
  | some e => { gs with experiment := some e }
  | none => gs

/-- Embeds the full keyword-argument list of `choose_generation_strategy`
(lines 177-192 of the source), bundled as one record. -/
structure ChooseArgs where
  search_space : SearchSpace
  use_batch_trials : Bool
  enforce_sequential_optimization : Bool
  random_seed : Option Int
  winsorize_botorch_model : Bool
  winsorization_limits : Option (Option Rat × Option Rat)
  no_bayesian_optimization : Bool
  num_trials : Option Int
  num_initialization_trials : Option Int
  max_parallelism_cap : Option Int
  max_parallelism_override : Option Int
  optimization_config : Option OptimizationConfig
  should_deduplicate : Bool
  use_saasbo : Bool
  experiment : Option Nat
deriving Repr

/-- Embeds the `else` branch of `choose_generation_strategy` (lines 313-321)
together with the experiment attachment: a single unbounded Sobol step built
with the Python defaults `num_trials=-1`, `min_trials_observed=None`,
`enforce_num_trials=True`, `max_parallelism=None`. The first component lists
the generation steps constructed during the call, in construction order. -/
def sobolOnlyResult (args : ChooseArgs) :
    List GenerationStep × Except ChooseError GenerationStrategy :=
  let step := makeSobolStep (-1) none true none args.random_seed args.should_deduplicate
  ([step],
   Except.ok (attachExperiment { steps := [step], experiment := none } args.experiment))

/-- Embeds `choose_generation_strategy` (lines 177-324 of the source),
additionally recording in the first component every `GenerationStep`
constructed before the call returns or raises, in the order Python constructs
them (the `steps` list literal of lines 291-306 evaluates
`_make_sobol_step(...)` before `_make_botorch_step(...)`). The second
component is the returned strategy or the raised `ValueError`. -/
def chooseGenerationStrategyTrace (args : ChooseArgs) :
    List GenerationStep × Except ChooseError GenerationStrategy :=
  let suggested_model :=
    suggestGpModel args.search_space args.num_trials args.optimization_config args.use_saasbo
  match suggested_model with
  | some model =>
      if args.no_bayesian_optimization then
        sobolOnlyResult args
      else if truthyOptInt args.max_parallelism_override &&
          truthyOptInt args.max_parallelism_cap then
        ([], Except.error ChooseError.parallelismConflict)
      else
        let num_initialization_trials :=
          resolveInitTrials args.num_initialization_trials args.use_batch_trials
            args.search_space
        let parallelism :=
          resolveParallelism args.max_parallelism_override args.max_parallelism_cap
            args.enforce_sequential_optimization
        let sobol_step :=
          makeSobolStep num_initialization_trials none
            args.enforce_sequential_optimization parallelism.1 args.random_seed
            args.should_deduplicate
        match makeBotorchStep (-1) none true parallelism.2 model
            args.winsorize_botorch_model args.winsorization_limits
            args.should_deduplicate with
        | Except.error e => ([sobol_step], Except.error e)
        | Except.ok botorch_step =>
            ([sobol_step, botorch_step],
             Except.ok (attachExperiment
               { steps := [sobol_step, botorch_step], experiment := none }
               args.experiment))
  | none => sobolOnlyResult args

/-- Embeds the observable behaviour of `choose_generation_strategy`: the
returned `GenerationStrategy`, or the raised `ValueError`. -/
def chooseGenerationStrategy (args : ChooseArgs) :
    Except ChooseError GenerationStrategy :=
  (chooseGenerationStrategyTrace args).2

/-- Example search space: one continuous (FLOAT) range parameter, so the
continuous-dominant rule of the heuristic fires. -/
def exSpaceCont : SearchSpace :=
  { parameters := [("x1", Parameter.range ParameterType.FLOAT 0 1)] }

/-- Example search space: one integer range parameter spanning `0..10`
(10 enumerable points under the `upper - lower` width approximation). -/
def exSpaceEnum : SearchSpace :=
  { parameters := [("n", Parameter.range ParameterType.INT 0 10)] }

/-- Example search space: four choice parameters of three values each, hence
`81` discrete combinations, above the ceiling of `65`. -/
def exSpaceChoice81 : SearchSpace :=
  { parameters :=
      [("c1", Parameter.choice ["a", "b", "c"]),
       ("c2", Parameter.choice ["a", "b", "c"]),
       ("c3", Parameter.choice ["a", "b", "c"]),
       ("c4", Parameter.choice ["a", "b", "c"])] }

/-- Example argument record with every tunable at the Python default of
`choose_generation_strategy`, over the continuous example space. -/
def baseArgs : ChooseArgs :=
  { search_space := exSpaceCont
    use_batch_trials := false
    enforce_sequential_optimization := true
    random_seed := none
    winsorize_botorch_model := false
    winsorization_limits := none
    no_bayesian_optimization := false
    num_trials := none
    num_initialization_trials := none
    max_parallelism_cap := none
    max_parallelism_override := none
    optimization_config := none
    should_deduplicate := false
    use_saasbo := false
    experiment := none }

/-- Justifies the definition of `ceilHalf`: it is the exact mathematical
ceiling of `n / 2`, as computed by Python `math.ceil(n / 2)`. -/
theorem ceilHalf_eq_ceil (n : Int) : ceilHalf n = ⌈(n : ℚ) / 2⌉ := by
  have h1 : n ≤ 2 * ceilHalf n := by unfold ceilHalf; omega
  have h2 : 2 * ceilHalf n - 2 < n := by unfold ceilHalf; omega
  have h1q : (n : ℚ) ≤ 2 * (ceilHalf n : ℚ) := by exact_mod_cast h1
  have h2q : 2 * (ceilHalf n : ℚ) - 2 < (n : ℚ) := by exact_mod_cast h2
  symm
  rw [Int.ceil_eq_iff]
  constructor
  · linarith
  · linarith

/-- Attaching an experiment back-reference leaves the steps unchanged. -/
theorem attachExperiment_steps (gs : GenerationStrategy) (e : Option Nat) :
    (attachExperiment gs e).steps = gs.steps := by
  cases e <;> rfl

/-- The single-phase branch: when the heuristic suggests no model or
Bayesian optimization is disabled, `choose_generation_strategy` takes the
`else` branch of lines 313-321. -/
theorem trace_eq_sobolOnly (args : ChooseArgs)
    (h : suggestGpModel args.search_space args.num_trials args.optimization_config
           args.use_saasbo = none
         ∨ args.no_bayesian_optimization = true) :
    chooseGenerationStrategyTrace args = sobolOnlyResult args := by
  unfold chooseGenerationStrategyTrace
  rcases h with h | h
  · rw [h]
  · rw [h]
    cases suggestGpModel args.search_space args.num_trials args.optimization_config
        args.use_saasbo <;> simp

/-- `_make_botorch_step` only ever raises the winsorization error. -/
theorem makeBotorchStep_error_eq (num_trials : Int) (min_trials_observed : Option Int)
    (enforce_num_trials : Bool) (max_parallelism : Option Int) (model : Models)
    (winsorize : Bool) (winsorization_limits : Option (Option Rat × Option Rat))
    (should_deduplicate : Bool) (e : ChooseError)
    (h : makeBotorchStep num_trials min_trials_observed enforce_num_trials
        max_parallelism model winsorize winsorization_limits should_deduplicate =
        Except.error e) :
    e = ChooseError.winsorizationInconsistent := by
  unfold makeBotorchStep at h
  split at h
  · exact (Except.error.injEq _ _).mp h |>.symm
  · exact absurd h (by simp)

/-- `_make_botorch_step` raises exactly when one of `winsorize` /
`winsorization_limits` is set without the other. -/
theorem makeBotorchStep_error_of (num_trials : Int) (min_trials_observed : Option Int)
    (enforce_num_trials : Bool) (max_parallelism : Option Int) (model : Models)
    (winsorize : Bool) (winsorization_limits : Option (Option Rat × Option Rat))
    (should_deduplicate : Bool)
    (h : (winsorize = true ∧ winsorization_limits = none)
         ∨ (winsorize = false ∧ winsorization_limits ≠ none)) :
    makeBotorchStep num_trials min_trials_observed enforce_num_trials
        max_parallelism model winsorize winsorization_limits should_deduplicate =
      Except.error ChooseError.winsorizationInconsistent := by
  unfold makeBotorchStep
  rcases h with ⟨hw, hl⟩ | ⟨hw, hl⟩
  · subst hw; subst hl; rfl
  · subst hw
    cases winsorization_limits
    · exact absurd rfl hl
    · rfl

/-- When `_make_botorch_step` succeeds, the produced step carries the given
model and trial budget. -/
theorem makeBotorchStep_ok_fields (num_trials : Int) (min_trials_observed : Option Int)
    (enforce_num_trials : Bool) (max_parallelism : Option Int) (model : Models)
    (winsorize : Bool) (winsorization_limits : Option (Option Rat × Option Rat))
    (should_deduplicate : Bool) (b : GenerationStep)
    (h : makeBotorchStep num_trials min_trials_observed enforce_num_trials
        max_parallelism model winsorize winsorization_limits should_deduplicate =
        Except.ok b) :
    b.model = model ∧ b.num_trials = num_trials := by
  unfold makeBotorchStep at h
  split at h
  · exact absurd h (by simp)
  · have hb := (Except.ok.injEq _ _).mp h
    subst hb
    exact ⟨rfl, rfl⟩

/-- C3: when every range parameter is integer-typed and the product of
choice-parameter value counts and integer-range spans (each span counted as
`upper - lower`) is at most the known trial budget, `_suggest_gp_model`
returns `None`, regardless of the optimization config and of `use_saasbo`. -/
theorem c3_enumerable_space_law (search_space : SearchSpace) (num_trials : Int)
    (optimization_config : Option OptimizationConfig) (use_saasbo : Bool)
    (hint : (summarize search_space).all_range_parameters_are_int = true)
    (hle : (summarize search_space).num_possible_points ≤ num_trials) :
    suggestGpModel search_space (some num_trials) optimization_config use_saasbo =
      none := by
  have hguard : enumerableWithinBudget (summarize search_space) (some num_trials) = true := by
    simp [enumerableWithinBudget, hint, hle]
  simp [suggestGpModel, hguard]

/-- C3 witness: one integer range parameter spanning `0..10` gives `10`
enumerable points, within a budget of `100`. -/
theorem c3_enumerable_space_law_witness :
    suggestGpModel exSpaceEnum (some 100) none false = none :=
  c3_enumerable_space_law exSpaceEnum 100 none false (by decide) (by decide)

/-- C4: outside the enumerable-space rule, when the number of range
parameters strictly exceeds the total number of choice-parameter values,
`_suggest_gp_model` returns exactly `FULLYBAYESIANMOO`, `MOO`,
`FULLYBAYESIAN` or `GPEI` according to multi-objectivity and `use_saasbo`. -/
theorem c4_continuous_dominant (search_space : SearchSpace) (num_trials : Option Int)
    (optimization_config : Option OptimizationConfig) (use_saasbo : Bool)
    (henum : enumerableWithinBudget (summarize search_space) num_trials = false)
    (hcont : (summarize search_space).num_continuous_parameters >
      (summarize search_space).num_discrete_choices) :
    suggestGpModel search_space num_trials optimization_config use_saasbo =
      some (match isMooProblem optimization_config, use_saasbo with
        | true, true => Models.FULLYBAYESIANMOO
        | true, false => Models.MOO
        | false, true => Models.FULLYBAYESIAN
        | false, false => Models.GPEI) := by
  cases hmoo : isMooProblem optimization_config <;> cases use_saasbo <;>
    simp [suggestGpModel, henum, hcont, hmoo]

/-- C4 witness (Scenario D of the spec): a continuous-dominant space with a
multi-objective config and `use_saasbo = true` yields `FULLYBAYESIANMOO`. -/
theorem c4_continuous_dominant_witness :
    suggestGpModel exSpaceCont none (some { is_moo_problem := true }) true =
      some Models.FULLYBAYESIANMOO := by
  have h := c4_continuous_dominant exSpaceCont none
    (some { is_moo_problem := true }) true (by decide) (by decide)
  simpa using h

/-- C5: the parallelism determination of `choose_generation_strategy`
resolves the per-phase limits exactly as the spec table states, with the
exploration (Sobol) limit first and the optimization (BayesOpt) limit
second. -/
theorem c5_parallelism_table (override cap : Option Int) (enforce : Bool) :
    (override = some (-1) →
        resolveParallelism override cap enforce = (none, none))
    ∧ (∀ o : Int, override = some o → o ≠ -1 →
        resolveParallelism override cap enforce = (some o, some o))
    ∧ (∀ c : Int, override = none → cap = some c →
        resolveParallelism override cap enforce = (some c, some (min c 3)))
    ∧ (override = none → cap = none → enforce = false →
        resolveParallelism override cap enforce = (none, none))
    ∧ (override = none → cap = none → enforce = true →
        resolveParallelism override cap enforce = (none, some 3)) := by
  refine ⟨?_, ?_, ?_, ?_, ?_⟩ <;> intros <;> subst_vars <;>
    simp_all [resolveParallelism, DEFAULT_BAYESIAN_PARALLELISM]

/-- C5 witness: with no override, a cap of `2`, and sequential enforcement,
the limits are `(2, min 2 3)`. -/
theorem c5_parallelism_table_witness :
    resolveParallelism none (some 2) true = (some 2, some (min 2 3)) :=
  (c5_parallelism_table none (some 2) true).2.2.1 2 rfl rfl

/-- C6: outside the enumerable-space and continuous-dominant rules,
`_suggest_gp_model` returns `BO_MIXED` exactly for single-objective problems
(including a missing optimization config) with at most `65` discrete
combinations, and `None` otherwise. -/
theorem c6_discrete_fallback (search_space : SearchSpace) (num_trials : Option Int)
    (optimization_config : Option OptimizationConfig) (use_saasbo : Bool)
    (henum : enumerableWithinBudget (summarize search_space) num_trials = false)
    (hcont : ¬ (summarize search_space).num_continuous_parameters >
      (summarize search_space).num_discrete_choices) :
    ((isMooProblem optimization_config = false ∧
        (summarize search_space).num_discrete_combinations ≤ 65) →
      suggestGpModel search_space num_trials optimization_config use_saasbo =
        some Models.BO_MIXED)
    ∧ ((isMooProblem optimization_config = true ∨
        65 < (summarize search_space).num_discrete_combinations) →
      suggestGpModel search_space num_trials optimization_config use_saasbo =
        none) := by
  constructor
  · rintro ⟨h1, h2⟩
    simp [suggestGpModel, henum, hcont, h1, h2, MAX_DISCRETE_COMBINATIONS]
  · rintro (h | h)
    · simp [suggestGpModel, henum, hcont, h]
    · simp [suggestGpModel, henum, hcont, MAX_DISCRETE_COMBINATIONS,
        Nat.not_le_of_lt h]

/-- C6 witness (Scenario C of the spec): four choice parameters of three
values each give `81 > 65` combinations, so the heuristic falls back to
`None` even though the problem is single-objective. -/
theorem c6_discrete_fallback_witness :
    suggestGpModel exSpaceChoice81 none none false = none :=
  (c6_discrete_fallback exSpaceChoice81 none none false (by decide) (by decide)).2
    (Or.inr (by decide))

/-- Abbreviates the Sobol exploration step that the two-phase branch of
`choose_generation_strategy` constructs (lines 292-298 of the source). -/
def sobolStepOf (args : ChooseArgs) : GenerationStep :=
  makeSobolStep
    (resolveInitTrials args.num_initialization_trials args.use_batch_trials
      args.search_space)
    none args.enforce_sequential_optimization
    (resolveParallelism args.max_parallelism_override args.max_parallelism_cap
      args.enforce_sequential_optimization).1
    args.random_seed args.should_deduplicate

/-- The conflicting-parallelism branch: with a model suggested, Bayesian
optimization enabled, and both parallelism settings truthy, the call raises
before any step is built. -/
theorem trace_eq_conflict (args : ChooseArgs) (m : Models)
    (hs : suggestGpModel args.search_space args.num_trials args.optimization_config
      args.use_saasbo = some m)
    (hb : args.no_bayesian_optimization = false)
    (hpar : (truthyOptInt args.max_parallelism_override &&
      truthyOptInt args.max_parallelism_cap) = true) :
    chooseGenerationStrategyTrace args = ([], Except.error ChooseError.parallelismConflict) := by
  unfold chooseGenerationStrategyTrace
  simp [hs, hb, hpar]

/-- The branch in which `_make_botorch_step` raises: the Sobol step has
already been built when the error surfaces. -/
theorem trace_eq_botorchError (args : ChooseArgs) (m : Models) (e : ChooseError)
    (hs : suggestGpModel args.search_space args.num_trials args.optimization_config
      args.use_saasbo = some m)
    (hb : args.no_bayesian_optimization = false)
    (hpar : (truthyOptInt args.max_parallelism_override &&
      truthyOptInt args.max_parallelism_cap) = false)
    (hbo : makeBotorchStep (-1) none true
        (resolveParallelism args.max_parallelism_override args.max_parallelism_cap
          args.enforce_sequential_optimization).2
        m args.winsorize_botorch_model args.winsorization_limits
        args.should_deduplicate = Except.error e) :
    chooseGenerationStrategyTrace args = ([sobolStepOf args], Except.error e) := by
  unfold chooseGenerationStrategyTrace
  simp [hs, hb, hpar, hbo, sobolStepOf]

/-- The successful two-phase branch: Sobol exploration step followed by the
BayesOpt step, with the experiment back-reference attached. -/
theorem trace_eq_twoPhase (args : ChooseArgs) (m : Models) (b : GenerationStep)
    (hs : suggestGpModel args.search_space args.num_trials args.optimization_config
      args.use_saasbo = some m)
    (hb : args.no_bayesian_optimization = false)
    (hpar : (truthyOptInt args.max_parallelism_override &&
      truthyOptInt args.max_parallelism_cap) = false)
    (hbo : makeBotorchStep (-1) none true
        (resolveParallelism args.max_parallelism_override args.max_parallelism_cap
          args.enforce_sequential_optimization).2
        m args.winsorize_botorch_model args.winsorization_limits
        args.should_deduplicate = Except.ok b) :
    chooseGenerationStrategyTrace args = ([sobolStepOf args, b],
      Except.ok (attachExperiment
        { steps := [sobolStepOf args, b], experiment := none } args.experiment)) := by
  unfold chooseGenerationStrategyTrace
  simp [hs, hb, hpar, hbo, sobolStepOf]

/-- Example arguments refuting C1: both parallelism settings supplied
non-null, but the override is `0`, which Python truthiness treats as unset. -/
def c1Args : ChooseArgs :=
  { baseArgs with max_parallelism_override := some 0, max_parallelism_cap := some 5 }

/-- C1 counterexample: with `max_parallelism_override = 0` and
`max_parallelism_cap = 5` both supplied (non-null), a model suggested and
Bayesian optimization enabled, `choose_generation_strategy` does NOT raise:
the mutual-exclusion check `if max_parallelism_override and
max_parallelism_cap` treats the integer `0` as falsy, so the call succeeds. -/
theorem c1_counterexample :
    c1Args.max_parallelism_override = some 0 ∧ c1Args.max_parallelism_cap = some 5 ∧
    c1Args.no_bayesian_optimization = false ∧
    (chooseGenerationStrategy c1Args).isOk = true :=
  ⟨rfl, rfl, rfl, by decide⟩

/-- C1 amended: in the branch with a suggested model and Bayesian
optimization enabled, supplying both parallelism settings non-null AND
non-zero (Python-truthy; this includes `-1`) always raises the
conflicting-parallelism `ValueError`, for every value of
`enforce_sequential_optimization` and all other settings. -/
theorem c1_amended_parallelism_mutual_exclusion (args : ChooseArgs) (o c : Int)
    (ho : args.max_parallelism_override = some o)
    (hc : args.max_parallelism_cap = some c)
    (ho0 : o ≠ 0) (hc0 : c ≠ 0)
    (hb : args.no_bayesian_optimization = false)
    (hm : (suggestGpModel args.search_space args.num_trials args.optimization_config
      args.use_saasbo).isSome = true) :
    chooseGenerationStrategy args = Except.error ChooseError.parallelismConflict := by
  obtain ⟨m, hm2⟩ := Option.isSome_iff_exists.mp hm
  have hpar : (truthyOptInt args.max_parallelism_override &&
      truthyOptInt args.max_parallelism_cap) = true := by
    rw [ho, hc]
    simp [truthyOptInt, ho0, hc0]
  unfold chooseGenerationStrategy
  rw [trace_eq_conflict args m hm2 hb hpar]

/-- Example arguments for the C1 amended witness: override `-1` and cap `5`,
both truthy. -/
def c1AmendedArgs : ChooseArgs :=
  { baseArgs with max_parallelism_override := some (-1), max_parallelism_cap := some 5 }

/-- C1 amended witness: override `-1` together with cap `5` raises the
conflict error (the `-1` half of the original claim does hold). -/
theorem c1_amended_parallelism_mutual_exclusion_witness :
    chooseGenerationStrategy c1AmendedArgs = Except.error ChooseError.parallelismConflict :=
  c1_amended_parallelism_mutual_exclusion c1AmendedArgs (-1) 5 rfl rfl
    (by decide) (by decide) rfl (by decide)

/-- Example arguments refuting C2: an enumerable search space (so the
heuristic suggests no model) with an inconsistent winsorization request. -/
def c2Args : ChooseArgs :=
  { baseArgs with
      search_space := exSpaceEnum
      num_trials := some 100
      winsorize_botorch_model := true }

/-- C2 counterexample: with `winsorize=true` and `winsorization_limits=None`,
`choose_generation_strategy` does NOT fail when the heuristic takes the
pure-sampling branch: the winsorization check lives in `_make_botorch_step`,
which the single-phase branch never calls, so the call succeeds. -/
theorem c2_counterexample :
    c2Args.winsorize_botorch_model = true ∧ c2Args.winsorization_limits = none ∧
    suggestGpModel c2Args.search_space c2Args.num_trials c2Args.optimization_config
      c2Args.use_saasbo = none ∧
    (chooseGenerationStrategy c2Args).isOk = true :=
  ⟨rfl, rfl, by decide, by decide⟩

/-- C2 amended: whenever the two-phase branch is taken (a model is suggested
and Bayesian optimization is enabled) and exactly one of "apply
winsorization" / "winsorization limits provided" is set,
`choose_generation_strategy` fails with a configuration error. -/
theorem c2_amended_winsorization_validation (args : ChooseArgs)
    (hm : (suggestGpModel args.search_space args.num_trials args.optimization_config
      args.use_saasbo).isSome = true)
    (hb : args.no_bayesian_optimization = false)
    (hw : (args.winsorize_botorch_model = true ∧ args.winsorization_limits = none)
        ∨ (args.winsorize_botorch_model = false ∧ args.winsorization_limits ≠ none)) :
    (chooseGenerationStrategy args).isOk = false := by
  obtain ⟨m, hm2⟩ := Option.isSome_iff_exists.mp hm
  unfold chooseGenerationStrategy
  by_cases hpar : (truthyOptInt args.max_parallelism_override &&
      truthyOptInt args.max_parallelism_cap) = true
  · rw [trace_eq_conflict args m hm2 hb hpar]
    rfl
  · rw [Bool.not_eq_true] at hpar
    rw [trace_eq_botorchError args m ChooseError.winsorizationInconsistent hm2 hb hpar
      (makeBotorchStep_error_of _ _ _ _ _ _ _ _ hw)]
    rfl

/-- Example arguments for the C2 amended witness: continuous-dominant space
(model suggested) with `winsorize=true` and no limits. -/
def c2AmendedArgs : ChooseArgs :=
  { baseArgs with winsorize_botorch_model := true }

/-- C2 amended witness: in the two-phase branch the inconsistent
winsorization request does make the call fail. -/
theorem c2_amended_winsorization_validation_witness :
    (chooseGenerationStrategy c2AmendedArgs).isOk = false :=
  c2_amended_winsorization_validation c2AmendedArgs (by decide) rfl
    (Or.inl ⟨rfl, rfl⟩)

/-- C10: whenever the heuristic suggests no model or
`no_bayesian_optimization` is true, `choose_generation_strategy` never
raises, for every combination of the winsorization and parallelism
settings. -/
theorem c10_single_phase_total (args : ChooseArgs)
    (h : suggestGpModel args.search_space args.num_trials args.optimization_config
        args.use_saasbo = none
      ∨ args.no_bayesian_optimization = true) :
    (chooseGenerationStrategy args).isOk = true := by
  unfold chooseGenerationStrategy
  rw [trace_eq_sobolOnly args h]
  rfl

/-- Example arguments for the C10 witness: Bayesian optimization disabled
while both error triggers are armed (inconsistent winsorization, both
parallelism settings truthy). -/
def c10Args : ChooseArgs :=
  { baseArgs with
      no_bayesian_optimization := true
      winsorize_botorch_model := true
      max_parallelism_override := some 2
      max_parallelism_cap := some 5 }

/-- C10 witness: with `no_bayesian_optimization = true` the call succeeds
even though both error conditions hold on the inputs. -/
theorem c10_single_phase_total_witness :
    (chooseGenerationStrategy c10Args).isOk = true :=
  c10_single_phase_total c10Args (Or.inr rfl)

/-- Example arguments refuting C7: a model is suggested, the winsorization
request is inconsistent, so the winsorization error fires only after the
Sobol exploration step has been constructed. -/
def c7Args : ChooseArgs :=
  { baseArgs with winsorize_botorch_model := true }

/-- C7 counterexample: the winsorization error is NOT detected before any
generation phase is built. Python evaluates the `steps` list literal left to
right, so `_make_sobol_step` has already constructed the exploration phase
when `_make_botorch_step` raises: the construction trace holds one step. -/
theorem c7_counterexample :
    (chooseGenerationStrategyTrace c7Args).2 =
      Except.error ChooseError.winsorizationInconsistent
    ∧ (chooseGenerationStrategyTrace c7Args).1.length = 1 :=
  ⟨rfl, rfl⟩

/-- C7 amended: the conflicting-parallelism error is detected before any
phase is built; the inconsistent-winsorization error is detected after
exactly one phase (the Sobol exploration step) is built but before the
strategy is assembled; and with either error no strategy, partial or
otherwise, is returned. -/
theorem c7_amended_fail_fast (args : ChooseArgs) :
    ((chooseGenerationStrategyTrace args).2 = Except.error ChooseError.parallelismConflict →
        (chooseGenerationStrategyTrace args).1 = [])
    ∧ ((chooseGenerationStrategyTrace args).2 =
          Except.error ChooseError.winsorizationInconsistent →
        (chooseGenerationStrategyTrace args).1.length = 1
        ∧ ∀ s ∈ (chooseGenerationStrategyTrace args).1, s.model = Models.SOBOL)
    ∧ (∀ e : ChooseError, ∀ gs : GenerationStrategy,
        (chooseGenerationStrategyTrace args).2 = Except.error e →
        (chooseGenerationStrategyTrace args).2 ≠ Except.ok gs) := by
  cases hs : suggestGpModel args.search_space args.num_trials args.optimization_config
      args.use_saasbo with
  | none =>
    rw [trace_eq_sobolOnly args (Or.inl hs)]
    simp [sobolOnlyResult]
  | some m =>
    cases hb : args.no_bayesian_optimization with
    | true =>
      rw [trace_eq_sobolOnly args (Or.inr hb)]
      simp [sobolOnlyResult]
    | false =>
      by_cases hpar : (truthyOptInt args.max_parallelism_override &&
          truthyOptInt args.max_parallelism_cap) = true
      · rw [trace_eq_conflict args m hs hb hpar]
        simp
      · rw [Bool.not_eq_true] at hpar
        cases hbo : makeBotorchStep (-1) none true
            (resolveParallelism args.max_parallelism_override args.max_parallelism_cap
              args.enforce_sequential_optimization).2
            m args.winsorize_botorch_model args.winsorization_limits
            args.should_deduplicate with
        | error e =>
          have he := makeBotorchStep_error_eq _ _ _ _ _ _ _ _ _ hbo
          subst he
          rw [trace_eq_botorchError args m _ hs hb hpar hbo]
          refine ⟨by simp, fun _ => ⟨rfl, ?_⟩, by simp⟩
          intro s hmem
          simp only [List.mem_singleton] at hmem
          subst hmem
          rfl
        | ok b =>
          rw [trace_eq_twoPhase args m b hs hb hpar hbo]
          simp

/-- Example arguments for the C7 amended witness: both parallelism settings
truthy, so the parallelism conflict fires with an empty construction
trace. -/
def c7AmendedArgs : ChooseArgs :=
  { baseArgs with max_parallelism_override := some 2, max_parallelism_cap := some 5 }

/-- C7 amended witness: at the parallelism-conflict input no phase at all is
built before the error. -/
theorem c7_amended_fail_fast_witness :
    (chooseGenerationStrategyTrace c7AmendedArgs).1 = [] :=
  (c7_amended_fail_fast c7AmendedArgs).1 rfl

/-- C8: when an explicit `num_initialization_trials = k` is supplied and the
call returns a two-phase strategy, the exploration phase advances after
`ceil(k / 2)` observations; moreover `ceil(-1 / 2) = 0` and
`ceil(7 / 2) = 4` in the embedded arithmetic. -/
theorem c8_min_trials_observed (args : ChooseArgs) (k : Int) (gs : GenerationStrategy)
    (hk : args.num_initialization_trials = some k)
    (hok : chooseGenerationStrategy args = Except.ok gs)
    (h2 : gs.steps.length = 2) :
    (∀ s ∈ gs.steps.head?, s.min_trials_observed = ⌈(k : ℚ) / 2⌉)
    ∧ ceilHalf (-1) = 0 ∧ ceilHalf 7 = 4 := by
  refine ⟨?_, by decide, by decide⟩
  unfold chooseGenerationStrategy at hok
  cases hs : suggestGpModel args.search_space args.num_trials args.optimization_config
      args.use_saasbo with
  | none =>
    rw [trace_eq_sobolOnly args (Or.inl hs)] at hok
    simp only [sobolOnlyResult, Except.ok.injEq] at hok
    rw [← hok, attachExperiment_steps] at h2
    simp at h2
  | some m =>
    cases hb : args.no_bayesian_optimization with
    | true =>
      rw [trace_eq_sobolOnly args (Or.inr hb)] at hok
      simp only [sobolOnlyResult, Except.ok.injEq] at hok
      rw [← hok, attachExperiment_steps] at h2
      simp at h2
    | false =>
      by_cases hpar : (truthyOptInt args.max_parallelism_override &&
          truthyOptInt args.max_parallelism_cap) = true
      · rw [trace_eq_conflict args m hs hb hpar] at hok
        exact absurd hok (by simp)
      · rw [Bool.not_eq_true] at hpar
        cases hbo : makeBotorchStep (-1) none true
            (resolveParallelism args.max_parallelism_override args.max_parallelism_cap
              args.enforce_sequential_optimization).2
            m args.winsorize_botorch_model args.winsorization_limits
            args.should_deduplicate with
        | error e =>
          rw [trace_eq_botorchError args m e hs hb hpar hbo] at hok
          exact absurd hok (by simp)
        | ok b =>
          rw [trace_eq_twoPhase args m b hs hb hpar hbo] at hok
          simp only [Except.ok.injEq] at hok
          have hsteps : gs.steps = [sobolStepOf args, b] := by
            rw [← hok, attachExperiment_steps]
          rw [hsteps]
          intro s hmem
          simp only [List.head?_cons, Option.mem_def, Option.some.injEq] at hmem
          subst hmem
          have hval : (sobolStepOf args).min_trials_observed = ceilHalf k := by
            simp [sobolStepOf, makeSobolStep, pyOrInt, resolveInitTrials, hk]
          rw [hval]
          exact ceilHalf_eq_ceil k

/-- Example arguments for the C8 witness: an explicit initialization budget
of `7` trials over the continuous example space. -/
def c8Args : ChooseArgs :=
  { baseArgs with num_initialization_trials := some 7 }

/-- Strategy returned at the C8 witness input. -/
def c8gs : GenerationStrategy :=
  ((chooseGenerationStrategy c8Args).toOption).getD { steps := [], experiment := none }

/-- C8 witness: at `num_initialization_trials = 7` the exploration phase of
the returned strategy requires `ceil(7 / 2) = 4` observations. -/
theorem c8_min_trials_observed_witness :
    (∀ s ∈ c8gs.steps.head?, s.min_trials_observed = ⌈((7 : Int) : ℚ) / 2⌉)
    ∧ ceilHalf (-1) = 0 ∧ ceilHalf 7 = 4 :=
  c8_min_trials_observed c8Args 7 c8gs rfl rfl rfl

/-- C9: a normally returned strategy has exactly two phases if and only if
the heuristic suggested a model and `no_bayesian_optimization` is false; in
that case the first phase is the Sobol sampler with the resolved
initialization budget and the second carries the suggested model with
budget `-1`; in every other case the strategy is a single unbounded Sobol
phase with `enforce_num_trials = true` and no concurrency limit. -/
theorem c9_phase_structure (args : ChooseArgs) (gs : GenerationStrategy)
    (hok : chooseGenerationStrategy args = Except.ok gs) :
    (gs.steps.length = 2 ↔
      ((suggestGpModel args.search_space args.num_trials args.optimization_config
        args.use_saasbo).isSome = true ∧ args.no_bayesian_optimization = false))
    ∧ (gs.steps.length = 2 →
        (∀ s ∈ gs.steps.head?, s.model = Models.SOBOL ∧
          s.num_trials = resolveInitTrials args.num_initialization_trials
            args.use_batch_trials args.search_space)
        ∧ (∀ s ∈ gs.steps[1]?, some s.model = suggestGpModel args.search_space
            args.num_trials args.optimization_config args.use_saasbo
          ∧ s.num_trials = -1))
    ∧ (gs.steps.length ≠ 2 →
        gs.steps.length = 1 ∧ ∀ s ∈ gs.steps,
          s.model = Models.SOBOL ∧ s.num_trials = -1 ∧
          s.enforce_num_trials = true ∧ s.max_parallelism = none) := by
  unfold chooseGenerationStrategy at hok
  cases hs : suggestGpModel args.search_space args.num_trials args.optimization_config
      args.use_saasbo with
  | none =>
    rw [trace_eq_sobolOnly args (Or.inl hs)] at hok
    simp only [sobolOnlyResult, Except.ok.injEq] at hok
    have hsteps : gs.steps =
        [makeSobolStep (-1) none true none args.random_seed args.should_deduplicate] := by
      rw [← hok, attachExperiment_steps]
    rw [hsteps]
    refine ⟨by simp, by simp, fun _ => ⟨rfl, ?_⟩⟩
    intro s hmem
    simp only [List.mem_singleton] at hmem
    subst hmem
    exact ⟨rfl, rfl, rfl, rfl⟩
  | some m =>
    cases hb : args.no_bayesian_optimization with
    | true =>
      rw [trace_eq_sobolOnly args (Or.inr hb)] at hok
      simp only [sobolOnlyResult, Except.ok.injEq] at hok
      have hsteps : gs.steps =
          [makeSobolStep (-1) none true none args.random_seed args.should_deduplicate] := by
        rw [← hok, attachExperiment_steps]
      rw [hsteps]
      refine ⟨by simp, by simp, fun _ => ⟨rfl, ?_⟩⟩
      intro s hmem
      simp only [List.mem_singleton] at hmem
      subst hmem
      exact ⟨rfl, rfl, rfl, rfl⟩
    | false =>
      by_cases hpar : (truthyOptInt args.max_parallelism_override &&
          truthyOptInt args.max_parallelism_cap) = true
      · rw [trace_eq_conflict args m hs hb hpar] at hok
        exact absurd hok (by simp)
      · rw [Bool.not_eq_true] at hpar
        cases hbo : makeBotorchStep (-1) none true
            (resolveParallelism args.max_parallelism_override args.max_parallelism_cap
              args.enforce_sequential_optimization).2
            m args.winsorize_botorch_model args.winsorization_limits
            args.should_deduplicate with
        | error e =>
          rw [trace_eq_botorchError args m e hs hb hpar hbo] at hok
          exact absurd hok (by simp)
        | ok b =>
          rw [trace_eq_twoPhase args m b hs hb hpar hbo] at hok
          simp only [Except.ok.injEq] at hok
          have hsteps : gs.steps = [sobolStepOf args, b] := by
            rw [← hok, attachExperiment_steps]
          obtain ⟨hbm, hbn⟩ := makeBotorchStep_ok_fields _ _ _ _ _ _ _ _ _ hbo
          rw [hsteps]
          refine ⟨by simp, fun _ => ⟨?_, ?_⟩, by simp⟩
          · intro s hmem
            simp only [List.head?_cons, Option.mem_def, Option.some.injEq] at hmem
            subst hmem
            exact ⟨rfl, rfl⟩
          · intro s hmem
            simp at hmem
            subst hmem
            exact ⟨by rw [hbm], hbn⟩

/-- Strategy returned at the default example input (continuous space, all
defaults): used to witness C9. -/
def c9gs : GenerationStrategy :=
  ((chooseGenerationStrategy baseArgs).toOption).getD { steps := [], experiment := none }

/-- C9 witness: the default example input yields a two-phase strategy whose
structure matches the phase-structure invariant. -/
theorem c9_phase_structure_witness :
    (c9gs.steps.length = 2 ↔
      ((suggestGpModel baseArgs.search_space baseArgs.num_trials
        baseArgs.optimization_config baseArgs.use_saasbo).isSome = true
        ∧ baseArgs.no_bayesian_optimization = false))
    ∧ (c9gs.steps.length = 2 →
        (∀ s ∈ c9gs.steps.head?, s.model = Models.SOBOL ∧
          s.num_trials = resolveInitTrials baseArgs.num_initialization_trials
            baseArgs.use_batch_trials baseArgs.search_space)
        ∧ (∀ s ∈ c9gs.steps[1]?, some s.model = suggestGpModel baseArgs.search_space
            baseArgs.num_trials baseArgs.optimization_config baseArgs.use_saasbo
          ∧ s.num_trials = -1))
    ∧ (c9gs.steps.length ≠ 2 →
        c9gs.steps.length = 1 ∧ ∀ s ∈ c9gs.steps,
          s.model = Models.SOBOL ∧ s.num_trials = -1 ∧
          s.enforce_num_trials = true ∧ s.max_parallelism = none) :=
  c9_phase_structure baseArgs c9gs rfl
